import Mathlib

/-!
# Bookish Atelier product-catalog API — verification development

Shallow embedding of `src/main.py` (FastAPI product catalog backed by a
document store).  Stored documents are dynamically typed, so they are
modelled as association lists of field name to a `Value` sum type
(text / number / boolean / sequence / null).  Numbers are modelled as
rationals: every numeric literal in the program is a decimal literal, and
the program performs no arithmetic beyond comparisons and defaulting, so
the rational model is exact.

The document-store adapter (`database.py`: `db`, `create_document`,
`get_documents`) is imported by `main.py` but is not part of the source
tree; those operations are modelled from the specification (see the doc
comments starting `Modelled from the spec:`).
-/

/-- Dynamic (Python/BSON) value: text, number, boolean, sequence, or null. -/
inductive Value where
  | vnull : Value
  | vbool : Bool → Value
  | vnum : ℚ → Value
  | vstr : String → Value
  | varr : List Value → Value
deriving Repr, Inhabited

/-- A stored document / JSON object: association list of field name to value.
Python dict lookup returns the first binding. -/
abbrev Doc := List (String × Value)

/-- Python `d.get(k)` without default: `some v` when the key is present. -/
def pyLookup (d : Doc) (k : String) : Option Value :=
  match d.find? (fun p => p.1 = k) with
  | some p => some p.2
  | none => none

/-- Python `d.get(k, dflt)`. -/
def pyGetD (d : Doc) (k : String) (dflt : Value) : Value :=
  match pyLookup d k with
  | some v => v
  | none => dflt

/-- Python truthiness of a dynamic value. -/
def Value.truthy : Value → Bool
  | .vnull => false
  | .vbool b => b
  | .vnum q => q ≠ 0
  | .vstr s => s ≠ ""
  | .varr l => !l.isEmpty

/-- Python `a or b` on dynamic values (returns `a` when truthy, else `b`). -/
def pyOr (a b : Value) : Value :=
  if a.truthy then a else b

/-- Digit run to a natural number (`none` when a non-digit appears). -/
def readDigits : List Char → ℕ → Option ℕ
  | [], acc => some acc
  | c :: rest, acc =>
      if c.isDigit then readDigits rest (acc * 10 + (c.toNat - 48)) else none

/-- Unsigned decimal literal `digits[.digits]` as a rational.
Exotic Python float syntax (exponents, `inf`, `nan`, underscores,
surrounding whitespace) is not modelled; no claim depends on it. -/
def parseUnsignedDecimal (cs : List Char) : Option ℚ :=
  let intPart := cs.takeWhile Char.isDigit
  let rest := cs.dropWhile Char.isDigit
  match rest with
  | [] =>
      if intPart.isEmpty then none
      else (readDigits intPart 0).map (fun n => (n : ℚ))
  | '.' :: frac =>
      if intPart.isEmpty && frac.isEmpty then none
      else
        match readDigits intPart 0, readDigits frac 0 with
        | some i, some f => some ((i : ℚ) + (f : ℚ) / ((10 : ℚ) ^ frac.length))
        | _, _ => none
  | _ => none

/-- Signed decimal literal as a rational. -/
def parseDecimal (s : String) : Option ℚ :=
  match s.toList with
  | '-' :: rest => (parseUnsignedDecimal rest).map (fun q => -q)
  | '+' :: rest => parseUnsignedDecimal rest
  | rest => parseUnsignedDecimal rest

/-- Signed integer literal. -/
def parseIntStr (s : String) : Option ℤ :=
  match s.toList with
  | '-' :: rest => if rest.isEmpty then none else (readDigits rest 0).map (fun n => -(n : ℤ))
  | '+' :: rest => if rest.isEmpty then none else (readDigits rest 0).map (fun n => (n : ℤ))
  | rest => if rest.isEmpty then none else (readDigits rest 0).map (fun n => (n : ℤ))

/-- Python `float(v)`: numbers pass through, booleans become 0/1, numeric
strings are parsed, everything else raises. -/
def pyFloat : Value → Except String ℚ
  | .vnum q => .ok q
  | .vbool b => .ok (if b then 1 else 0)
  | .vstr s =>
      match parseDecimal s with
      | some q => .ok q
      | none => .error "could not convert string to float"
  | .vnull => .error "float() argument must not be NoneType"
  | .varr _ => .error "float() argument must not be list"

/-- Decimal rendering of a natural number. -/
def natDigits (n : ℕ) : String := toString n

/-- Python `str(v)` (total).  The textual form of numbers is not
claim-relevant; a canonical rational rendering is used. -/
def pyStr : Value → String
  | .vnull => "None"
  | .vbool b => if b then "True" else "False"
  | .vnum q => natDigits q.num.natAbs ++ "/" ++ natDigits q.den
  | .vstr s => s
  | .varr _ => "[...]"

/-- Python `list(v)`: sequences pass through, a string becomes its list of
one-character strings, everything else raises. -/
def pyList : Value → Except String (List Value)
  | .varr l => .ok l
  | .vstr s => .ok (s.toList.map (fun c => Value.vstr (String.singleton c)))
  | _ => .error "object is not iterable"

/-- The wire/stored shape of a product (the `Product` pydantic model:
`ProductIn` plus the assigned `id`). -/
structure Product where
  id : String
  title : String
  description : Option String
  price : ℚ
  category : String
  image : Option String
  rating : Option ℚ
  tags : List String
deriving Repr, DecidableEq

/-- Pydantic validation of a `str` field given a dynamic value. -/
def expectStr (field : String) : Value → Except String String
  | .vstr s => .ok s
  | _ => .error field

/-- Pydantic validation of an `Optional[str]` field. -/
def expectOptStr (field : String) : Value → Except String (Option String)
  | .vstr s => .ok (some s)
  | .vnull => .ok none
  | _ => .error field

/-- Pydantic validation of a `List[str]` field element. -/
def expectStrList (field : String) : List Value → Except String (List String)
  | [] => .ok []
  | .vstr s :: rest =>
      match expectStrList field rest with
      | .ok l => .ok (s :: l)
      | .error e => .error e
  | _ :: _ => .error field

/-- Embedding of `serialize_product` (src/main.py:41-51).  Reads each field of the raw
document with a default, coerces (`float(...)`, `... or 0`, `list(... or [])`),
then constructs the pydantic `Product` model, which re-validates every field
(`price >= 0`, `0 <= rating <= 5`, field types).  Any Python exception along
the way is the `.error` branch. -/
def serialize_product (doc : Doc) : Except String Product :=
  -- argument evaluation, in Python order; float()/list() may raise
  let idv := pyStr (pyGetD doc "_id" .vnull)
  let titleV := pyGetD doc "title" (.vstr "")
  let descV := pyGetD doc "description" .vnull
  match pyFloat (pyGetD doc "price" (.vnum 0)) with
  | .error e => .error e
  | .ok price =>
    let catV := pyGetD doc "category" (.vstr "")
    let imageV := pyGetD doc "image" .vnull
    match pyFloat (pyOr (pyGetD doc "rating" (.vnum 0)) (.vnum 0)) with
    | .error e => .error e
    | .ok rating =>
      match pyList (pyOr (pyGetD doc "tags" (.varr [])) (.varr [])) with
      | .error e => .error e
      | .ok tagsV =>
        -- pydantic model validation, in field-declaration order
        match expectStr "title" titleV with
        | .error e => .error e
        | .ok title =>
          match expectOptStr "description" descV with
          | .error e => .error e
          | .ok description =>
            if price < 0 then .error "price" else
            match expectStr "category" catV with
            | .error e => .error e
            | .ok category =>
              match expectOptStr "image" imageV with
              | .error e => .error e
              | .ok image =>
                if rating < 0 ∨ 5 < rating then .error "rating" else
                match expectStrList "tags" tagsV with
                | .error e => .error e
                | .ok tags =>
                  .ok ⟨idv, title, description, price, category, image, some rating, tags⟩

/-- Request-body model `ProductIn` (src/main.py:21-28) after validation. -/
structure ProductIn where
  title : String
  description : Option String
  price : ℚ
  category : String
  image : Option String
  rating : Option ℚ
  tags : List String
deriving Repr, DecidableEq

/-- Field `title: str` (required). -/
def vTitle (d : Doc) : Except String String :=
  match pyLookup d "title" with
  | some (.vstr s) => .ok s
  | _ => .error "title"

/-- Field `description: Optional[str] = None`. -/
def vDescription (d : Doc) : Except String (Option String) :=
  match pyLookup d "description" with
  | none => .ok none
  | some .vnull => .ok none
  | some (.vstr s) => .ok (some s)
  | some _ => .error "description"

/-- Field `price: float = Field(..., ge=0)`: required, non-negative;
numeric strings coerce to float. -/
def vPrice (d : Doc) : Except String ℚ :=
  match pyLookup d "price" with
  | some (.vnum q) => if 0 ≤ q then .ok q else .error "price"
  | some (.vstr s) =>
      match parseDecimal s with
      | some q => if 0 ≤ q then .ok q else .error "price"
      | none => .error "price"
  | _ => .error "price"

/-- Field `category: str` (required). -/
def vCategory (d : Doc) : Except String String :=
  match pyLookup d "category" with
  | some (.vstr s) => .ok s
  | _ => .error "category"

/-- Field `image: Optional[str] = None`. -/
def vImage (d : Doc) : Except String (Option String) :=
  match pyLookup d "image" with
  | none => .ok none
  | some .vnull => .ok none
  | some (.vstr s) => .ok (some s)
  | some _ => .error "image"

/-- Field `rating: Optional[float] = Field(default=4.5, ge=0, le=5)`:
absent means the default 4.5; an explicit null is accepted (the field is
Optional, constraints are skipped for None); a number must lie in [0,5]. -/
def vRating (d : Doc) : Except String (Option ℚ) :=
  match pyLookup d "rating" with
  | none => .ok (some ((9 : ℚ)/2))
  | some .vnull => .ok none
  | some (.vnum q) => if 0 ≤ q ∧ q ≤ 5 then .ok (some q) else .error "rating"
  | some (.vstr s) =>
      match parseDecimal s with
      | some q => if 0 ≤ q ∧ q ≤ 5 then .ok (some q) else .error "rating"
      | none => .error "rating"
  | some _ => .error "rating"

/-- Field `tags: List[str] = []`. -/
def vTags (d : Doc) : Except String (List String) :=
  match pyLookup d "tags" with
  | none => .ok []
  | some (.varr l) => expectStrList "tags" l
  | some _ => .error "tags"

/-- Name of the offending field, when a field validator failed. -/
def errFields {α : Type} (e : Except String α) : List String :=
  match e with
  | .ok _ => []
  | .error f => [f]

/-- Offending fields of a raw payload, in field-declaration order
(pydantic collects all field errors into one validation error). -/
def fieldErrs (d : Doc) : List String :=
  errFields (vTitle d) ++ errFields (vDescription d) ++ errFields (vPrice d) ++
    errFields (vCategory d) ++ errFields (vImage d) ++ errFields (vRating d) ++
    errFields (vTags d)

/-- FastAPI/pydantic validation of the request body against `ProductIn`:
either the validated model or the list of offending fields (rendered as a
422 response naming each field). -/
def parseProductIn (d : Doc) : Except (List String) ProductIn :=
  match vTitle d, vDescription d, vPrice d, vCategory d, vImage d, vRating d, vTags d with
  | .ok t, .ok de, .ok pr, .ok c, .ok im, .ok r, .ok tg =>
      .ok ⟨t, de, pr, c, im, r, tg⟩
  | _, _, _, _, _, _, _ => .error (fieldErrs d)

/-- Mongo filter of the only shapes `list_products` builds: optional exact
`category` equality, optional case-insensitive `$or` regex block over
`title` / `description` / `tags`. -/
structure MFilter where
  category : Option String
  qRegex : Option String
deriving Repr, DecidableEq

/-- Case-insensitive substring containment (the meaning of Mongo
`$regex: pattern, $options: "i"` for a literal pattern; spec §9 reads the
filter as "any tag containing the substring, case-insensitive"). -/
def ciContains (text pattern : String) : Bool :=
  decide ((pattern.toList.map Char.toLower) <:+: (text.toList.map Char.toLower))

/-- Mongo `{field: {$regex: pattern, $options: "i"}}` on one document:
a string field matches on substring, an array field when any string
element does, anything else (missing, null, number) does not match. -/
def regexFieldMatch (d : Doc) (field : String) (pattern : String) : Bool :=
  match pyLookup d field with
  | some (.vstr s) => ciContains s pattern
  | some (.varr l) =>
      l.any (fun v => match v with | .vstr s => ciContains s pattern | _ => false)
  | _ => false

/-- Mongo equality condition `{field: c}` for a string `c`: matches a
string field equal to `c` or an array field containing `c`. -/
def eqFieldMatch (d : Doc) (field : String) (c : String) : Bool :=
  match pyLookup d field with
  | some (.vstr s) => s = c
  | some (.varr l) => l.any (fun v => match v with | .vstr s => s = c | _ => false)
  | _ => false

/-- Whether a document satisfies a filter (Mongo semantics for the filter
shapes this application sends). -/
def docMatches (f : MFilter) (d : Doc) : Bool :=
  (match f.category with
   | some c => eqFieldMatch d "category" c
   | none => true) &&
  (match f.qRegex with
   | some q =>
       regexFieldMatch d "title" q || regexFieldMatch d "description" q ||
         regexFieldMatch d "tags" q
   | none => true)

/-- State of the `product` collection: documents in insertion (store-native)
order plus the id counter backing `ObjectId` generation. -/
structure Store where
  docs : List Doc
  nextId : ℕ
deriving Repr

/-- Generated document identifier, string-encoded. -/
def genId (n : ℕ) : String := "oid_" ++ toString n

/-- Modelled from the spec: `create_document` lives in `database.py`, which
is imported by src/main.py but is not in the source tree.  Spec §4.1:
"persists a new document, returns its generated unique identifier as a
string"; §4.2 `toStoredDocument`: "identity mapping plus omission of the
identifier field (store assigns it)". -/
def create_document (s : Store) (fields : Doc) : String × Store :=
  (genId s.nextId,
   ⟨s.docs ++ [("_id", Value.vstr (genId s.nextId)) :: fields], s.nextId + 1⟩)

/-- Modelled from the spec: `get_documents` lives in `database.py`, not in
the source tree.  Spec §4.1 `find`: "returns up to limit matching documents
in store-native order"; the filter semantics are MongoDB's for the filter
shapes `list_products` builds. -/
def get_documents (s : Store) (f : MFilter) (limit : ℕ) : List Doc :=
  (s.docs.filter (docMatches f)).take limit

/-- Whether a document's `_id` field is the given string id. -/
def docIdIs (d : Doc) (oid : String) : Bool :=
  match pyLookup d "_id" with
  | some (.vstr s) => s = oid
  | _ => false

/-- PyMongo `db["product"].find_one({"_id": oid})`: the first document in
store order whose `_id` equals the given id, if any. -/
def find_one (s : Store) (oid : String) : Option Doc :=
  s.docs.find? (fun d => docIdIs d oid)

/-- Dynamic value of an optional string (null when absent). -/
def optStrV : Option String → Value
  | some s => .vstr s
  | none => .vnull

/-- Modelled from the spec: the document stored for a validated `ProductIn`
is the identity mapping of its fields (spec §4.2 `toStoredDocument`). -/
def productInToDoc (p : ProductIn) : Doc :=
  [("title", .vstr p.title), ("description", optStrV p.description),
   ("price", .vnum p.price), ("category", .vstr p.category),
   ("image", optStrV p.image),
   ("rating", match p.rating with | some r => Value.vnum r | none => Value.vnull),
   ("tags", .varr (p.tags.map Value.vstr))]

/-- Outcome of `POST /api/products`: 200 with the created product, 422
naming the offending fields, or 500. -/
inductive PostResult where
  | created : Product → PostResult
  | clientError : List String → PostResult
  | serverError : String → PostResult
deriving Repr, DecidableEq

/-- Embedding of `create_product` (src/main.py:111-117) together with the
framework's request-body validation, which runs before the handler: an
invalid body is rejected with 422 and the handler never runs.  The handler
raises 500 when `db is None`, else inserts, re-reads the inserted document
by id and serializes it.  Returns the response and the store state after
the request. -/
def create_product (st : Option Store) (payload : Doc) : PostResult × Option Store :=
  match parseProductIn payload with
  | .error errs => (.clientError errs, st)
  | .ok pin =>
    match st with
    | none => (.serverError "Database not available", none)
    | some s =>
      let r := create_document s (productInToDoc pin)
      match find_one r.2 r.1 with
      | none => (.serverError "AttributeError", some r.2)
      | some doc =>
        match serialize_product doc with
        | .ok p => (.created p, some r.2)
        | .error e => (.serverError e, some r.2)

/-- FastAPI validation of `limit: int = Query(40, ge=1, le=100)`
(src/main.py:90): absent means 40; a non-integer raw value or an integer
outside [1,100] is rejected with 422 naming `limit`, before the handler
body (and hence the store) is reached. -/
def parseLimit (raw : Option String) : Except String ℤ :=
  match raw with
  | none => .ok 40
  | some s =>
      match parseIntStr s with
      | none => .error "limit"
      | some n => if 1 ≤ n ∧ n ≤ 100 then .ok n else .error "limit"

/-- Filter dict built by `list_products` (src/main.py:98-106): `category`
key only when the parameter is truthy (given and non-empty), `$or` regex
block only when `q` is truthy. -/
def buildFilter (category q : Option String) : MFilter :=
  ⟨match category with
    | some c => if c = "" then none else some c
    | none => none,
   match q with
    | some s => if s = "" then none else some s
    | none => none⟩

/-- The hardcoded fallback document of `list_products` (src/main.py:93-95).
Its `_id` is a freshly generated ObjectId; the id's value is
claim-irrelevant, so it is a parameter. -/
def demoDoc (oid : String) : Doc :=
  [("_id", .vstr oid), ("title", .vstr "Sample Book"),
   ("description", .vstr "Demo product (DB not configured)"),
   ("price", .vnum ((999 : ℚ)/100)), ("category", .vstr "books"),
   ("image", .vnull), ("rating", .vnum ((9 : ℚ)/2)), ("tags", .varr [])]

/-- List-comprehension `[serialize_product(d) for d in docs]`: serializes in
order, propagating the first exception. -/
def serializeAll : List Doc → Except String (List Product)
  | [] => .ok []
  | d :: rest =>
      match serialize_product d with
      | .error e => .error e
      | .ok p =>
          match serializeAll rest with
          | .error e => .error e
          | .ok ps => .ok (p :: ps)

/-- Outcome of `GET /api/products`: 200 with products, 422 naming the
offending query parameter, or 500 (serialization failure). -/
inductive ListResult where
  | ok : List Product → ListResult
  | clientError : String → ListResult
  | serverError : String → ListResult
deriving Repr, DecidableEq

/-- Embedding of `list_products` (src/main.py:89-109) together with the
framework's query-parameter validation, which runs before the handler.
When `db is None` the handler returns the serialized demo document; else it
builds the filter from `category` and `q` and queries the store with
`limit`. -/
def list_products (st : Option Store) (demoOid : String) (category q : Option String)
    (limitRaw : Option String) : ListResult :=
  match parseLimit limitRaw with
  | .error f => .clientError f
  | .ok limit =>
    match st with
    | none =>
        match serializeAll [demoDoc demoOid] with
        | .ok ps => .ok ps
        | .error e => .serverError e
    | some s =>
        match serializeAll (get_documents s (buildFilter category q) limit.toNat) with
        | .ok ps => .ok ps
        | .error e => .serverError e

/-- The 8 sample documents of `seed_products_if_empty` (src/main.py:60-69). -/
def sample_products : List Doc :=
  [[("title", .vstr "The Bookish Atelier Journal"),
    ("description", .vstr "A5 dotted journal for notes and sketches."),
    ("price", .vnum ((1499 : ℚ)/100)), ("category", .vstr "study"),
    ("image", .vstr "/images/journal.jpg"), ("rating", .vnum ((47 : ℚ)/10)),
    ("tags", .varr [.vstr "notebook", .vstr "stationery"])],
   [("title", .vstr "Espresso Shot (Campus Café)"),
    ("description", .vstr "Quick energy boost while you browse."),
    ("price", .vnum ((249 : ℚ)/100)), ("category", .vstr "snacks"),
    ("image", .vstr "/images/espresso.jpg"), ("rating", .vnum ((23 : ℚ)/5)),
    ("tags", .varr [.vstr "coffee"])],
   [("title", .vstr "Bookish Atelier Tote"),
    ("description", .vstr "Canvas tote for your reads."),
    ("price", .vnum 12), ("category", .vstr "merch"),
    ("image", .vstr "/images/tote.jpg"), ("rating", .vnum ((22 : ℚ)/5)),
    ("tags", .varr [.vstr "bag", .vstr "gift"])],
   [("title", .vstr "Annotated Classics: Pride & Prejudice"),
    ("description", .vstr "Curated edition with study notes."),
    ("price", .vnum ((37 : ℚ)/2)), ("category", .vstr "books"),
    ("image", .vstr "/images/pnp.jpg"), ("rating", .vnum ((49 : ℚ)/10)),
    ("tags", .varr [.vstr "classic", .vstr "novel"])],
   [("title", .vstr "Gel Ink Pens (Set of 5)"),
    ("description", .vstr "Smooth writing, 0.5mm."),
    ("price", .vnum ((699 : ℚ)/100)), ("category", .vstr "study"),
    ("image", .vstr "/images/pens.jpg"), ("rating", .vnum ((43 : ℚ)/10)),
    ("tags", .varr [.vstr "pen", .vstr "stationery"])],
   [("title", .vstr "Matcha Cookie"),
    ("description", .vstr "Crisp, lightly sweet."),
    ("price", .vnum ((199 : ℚ)/100)), ("category", .vstr "snacks"),
    ("image", .vstr "/images/cookie.jpg"), ("rating", .vnum ((21 : ℚ)/5)),
    ("tags", .varr [.vstr "cookie"])],
   [("title", .vstr "Hardcover: The Midnight Library"),
    ("description", .vstr "Best-selling novel."),
    ("price", .vnum 22), ("category", .vstr "books"),
    ("image", .vstr "/images/midnight.jpg"), ("rating", .vnum ((24 : ℚ)/5)),
    ("tags", .varr [.vstr "fiction"])],
   [("title", .vstr "Enamel Pin – Book Lover"),
    ("description", .vstr "Cute collectible pin."),
    ("price", .vnum ((9 : ℚ)/2)), ("category", .vstr "merch"),
    ("image", .vstr "/images/pin.jpg"), ("rating", .vnum ((41 : ℚ)/10)),
    ("tags", .varr [.vstr "pin", .vstr "gift"])]]

/-- The seeding loop `for s in samples: create_document("product", s)`
under a fault schedule: `faults i = true` means the i-th `create_document`
call raises (spec §4.1 `StorageError`).  The exception aborts the loop and
is caught by the surrounding `try`, keeping the documents already
inserted. -/
def insertSeeds : List Doc → Store → (ℕ → Bool) → ℕ → Store
  | [], s, _, _ => s
  | d :: rest, s, faults, i =>
      if faults i then s
      else insertSeeds rest (create_document s d).2 faults (i + 1)

/-- Embedding of `seed_products_if_empty` (src/main.py:53-74): no-op when
`db is None`; no-op when `count_documents({}) > 0`; otherwise inserts the
8 samples one at a time, any exception being caught and discarded. -/
def seed_products_if_empty (st : Option Store) (faults : ℕ → Bool) : Option Store :=
  match st with
  | none => none
  | some s =>
      if s.docs.length > 0 then some s
      else some (insertSeeds sample_products s faults 0)

/-- Store connection as the diagnostic endpoint sees it:
`list_collection_names()` either returns the collection names or raises
(the `.error` branch carries `str(e)`). -/
structure DbConn where
  collectionNames : Except String (List String)

/-- The status-report object built by `GET /test` (src/main.py:121-128). -/
structure TestResponse where
  backend : String
  database : String
  database_url : Option String
  database_name : Option String
  connection_status : String
  collections : List String
deriving Repr, DecidableEq

/-- Embedding of `test_database` (src/main.py:119-145).  The inputs are the
store handle and the two environment values; the nested `try`/`except`
blocks are the matches on the `Except`-valued connection call, so the
handler body is a total function — no fault escapes it. -/
def test_database (db : Option DbConn) (envUrl envName : Option String) : TestResponse :=
  let response : TestResponse :=
    ⟨"✅ Running", "❌ Not Available", none, none, "Not Connected", []⟩
  match db with
  | none => { response with database := "❌ Not Available" }
  | some conn =>
      let response := { response with
        database := "✅ Available"
        database_url := some (match envUrl with
          | some s => if s = "" then "❌ Not Set" else "✅ Set"
          | none => "❌ Not Set")
        database_name := some (match envName with
          | some s => if s = "" then "❌ Not Set" else s
          | none => "❌ Not Set")
        connection_status := "Connected" }
      match conn.collectionNames with
      | .ok cols =>
          { response with
              collections := cols.take 10
              database := "✅ Connected & Working" }
      | .error e =>
          { response with database := "⚠️ Connected but Error: " ++ e.take 50 }

/-- HTTP status the framework produces for a handler body: 200 on a normal
return, 500 on an uncaught exception. -/
def httpStatusOf {α : Type} : Except String α → ℕ
  | .ok _ => 200
  | .error _ => 500

/-- Body of the `GET /test` route in the exception monad: since every
internal fault is caught inside `test_database`, the body always returns
normally. -/
def test_route (db : Option DbConn) (envUrl envName : Option String) :
    Except String TestResponse :=
  .ok (test_database db envUrl envName)

/-! ## General lemmas about the embedding -/

theorem pyGetD_of_lookup_none {d : Doc} {k : String} {v : Value}
    (h : pyLookup d k = none) : pyGetD d k v = v := by
  simp [pyGetD, h]

theorem pyGetD_of_lookup_some {d : Doc} {k : String} {v w : Value}
    (h : pyLookup d k = some w) : pyGetD d k v = w := by
  simp [pyGetD, h]

theorem vPrice_error_of_neg {d : Doc} {pr : ℚ}
    (hl : pyLookup d "price" = some (.vnum pr)) (hneg : pr < 0) :
    vPrice d = .error "price" := by
  simp [vPrice, hl, not_le.mpr hneg]

theorem vRating_error_of_out {d : Doc} {r : ℚ}
    (hl : pyLookup d "rating" = some (.vnum r)) (hout : r < 0 ∨ 5 < r) :
    vRating d = .error "rating" := by
  have hno : ¬(0 ≤ r ∧ r ≤ 5) := by
    rcases hout with h | h
    · exact fun hc => absurd hc.1 (not_le.mpr h)
    · exact fun hc => absurd hc.2 (not_le.mpr h)
  simp [vRating, hl, hno]

theorem parseProductIn_error_of_ne (d : Doc) (hne : fieldErrs d ≠ []) :
    parseProductIn d = .error (fieldErrs d) := by
  unfold parseProductIn
  rcases h1 : vTitle d <;> rcases h2 : vDescription d <;> rcases h3 : vPrice d <;>
    rcases h4 : vCategory d <;> rcases h5 : vImage d <;> rcases h6 : vRating d <;>
    rcases h7 : vTags d <;>
    simp_all [fieldErrs, errFields]

theorem create_product_of_parse_error {payload : Doc} {st : Option Store}
    {errs : List String} (h : parseProductIn payload = .error errs) :
    create_product st payload = (.clientError errs, st) := by
  simp [create_product, h]

theorem parseProductIn_ok_fields {d : Doc} {pin : ProductIn}
    (h : parseProductIn d = .ok pin) :
    vTitle d = .ok pin.title ∧ vDescription d = .ok pin.description ∧
    vPrice d = .ok pin.price ∧ vCategory d = .ok pin.category ∧
    vImage d = .ok pin.image ∧ vRating d = .ok pin.rating ∧ vTags d = .ok pin.tags := by
  unfold parseProductIn at h
  split at h
  · simp only [Except.ok.injEq] at h
    subst h
    simp_all
  · simp at h

theorem vPrice_ok_nonneg {d : Doc} {q : ℚ} (h : vPrice d = .ok q) : 0 ≤ q := by
  unfold vPrice at h
  repeat' split at h
  all_goals simp_all

theorem vRating_ok_range {d : Doc} {r : ℚ} (h : vRating d = .ok (some r)) :
    0 ≤ r ∧ r ≤ 5 := by
  unfold vRating at h
  repeat' split at h
  all_goals simp_all
  all_goals (subst h; norm_num)

theorem vRating_default {d : Doc} (h : pyLookup d "rating" = none) :
    vRating d = .ok (some ((9 : ℚ)/2)) := by
  simp [vRating, h]

theorem expectOptStr_optStrV (f : String) (x : Option String) :
    expectOptStr f (optStrV x) = .ok x := by
  cases x <;> rfl

theorem expectStrList_map (f : String) (l : List String) :
    expectStrList f (l.map Value.vstr) = .ok l := by
  induction l with
  | nil => rfl
  | cons s rest ih => simp [expectStrList, ih]

theorem pyOr_vnull (b : Value) : pyOr Value.vnull b = b := rfl

theorem pyOr_varr_empty (l : List Value) :
    pyOr (Value.varr l) (Value.varr []) = Value.varr l := by
  cases l <;> simp [pyOr, Value.truthy]

theorem pyOr_vnum_zero_right (r : ℚ) :
    pyOr (Value.vnum r) (Value.vnum 0) = Value.vnum r := by
  by_cases hr0 : r = 0 <;> simp [pyOr, Value.truthy, hr0]

/-- Serializing a freshly inserted validated product reads every stored
field back: the id round-trips, a stored null rating reads back as 0,
a stored numeric rating reads back unchanged. -/
theorem serialize_product_roundtrip (oid : String) (pin : ProductIn)
    (hpr : 0 ≤ pin.price)
    (hr : ∀ r, pin.rating = some r → 0 ≤ r ∧ r ≤ 5) :
    serialize_product (("_id", Value.vstr oid) :: productInToDoc pin) =
      .ok ⟨oid, pin.title, pin.description, pin.price, pin.category, pin.image,
           some ((pin.rating).getD 0), pin.tags⟩ := by
  have hid : pyGetD (("_id", Value.vstr oid) :: productInToDoc pin) "_id" Value.vnull =
      Value.vstr oid := rfl
  have ht : pyGetD (("_id", Value.vstr oid) :: productInToDoc pin) "title" (.vstr "") =
      Value.vstr pin.title := rfl
  have hd : pyGetD (("_id", Value.vstr oid) :: productInToDoc pin) "description" Value.vnull =
      optStrV pin.description := rfl
  have hp : pyGetD (("_id", Value.vstr oid) :: productInToDoc pin) "price" (.vnum 0) =
      Value.vnum pin.price := rfl
  have hc : pyGetD (("_id", Value.vstr oid) :: productInToDoc pin) "category" (.vstr "") =
      Value.vstr pin.category := rfl
  have him : pyGetD (("_id", Value.vstr oid) :: productInToDoc pin) "image" Value.vnull =
      optStrV pin.image := rfl
  have hrt : pyGetD (("_id", Value.vstr oid) :: productInToDoc pin) "rating" (.vnum 0) =
      (match pin.rating with | some r => Value.vnum r | none => Value.vnull) := rfl
  have htg : pyGetD (("_id", Value.vstr oid) :: productInToDoc pin) "tags" (.varr []) =
      Value.varr (pin.tags.map Value.vstr) := rfl
  have h50 : ¬((5 : ℚ) < 0) := by norm_num
  have h00 : ¬((0 : ℚ) < 0) := by norm_num
  unfold serialize_product
  rw [hid, ht, hd, hp, hc, him, hrt, htg]
  rcases hrat : pin.rating with _ | r
  · simp [pyFloat, pyOr_vnull, pyOr_varr_empty, pyList, expectStr,
      expectOptStr_optStrV, expectStrList_map, pyStr, not_lt.mpr hpr, h50, h00]
  · have hrange := hr r hrat
    simp [pyFloat, pyOr_vnum_zero_right, pyOr_varr_empty, pyList, expectStr,
      expectOptStr_optStrV, expectStrList_map, pyStr, not_lt.mpr hpr,
      not_lt.mpr hrange.1, not_lt.mpr hrange.2]

/-- Re-reading a freshly inserted document by its generated id finds exactly
that document, provided no existing document already carries the id. -/
theorem find_one_insert (s : Store) (fields : Doc)
    (hwf : ∀ d ∈ s.docs, docIdIs d (genId s.nextId) = false) :
    find_one ⟨s.docs ++ [("_id", Value.vstr (genId s.nextId)) :: fields], s.nextId + 1⟩
        (genId s.nextId) =
      some (("_id", Value.vstr (genId s.nextId)) :: fields) := by
  have hnone : s.docs.find? (fun d => docIdIs d (genId s.nextId)) = none :=
    List.find?_eq_none.mpr (by intro x hx; simp [hwf x hx])
  unfold find_one
  rw [List.find?_append, hnone]
  simp [docIdIs, pyLookup]

theorem serialize_demoDoc (oid : String) :
    serialize_product (demoDoc oid) =
      .ok ⟨oid, "Sample Book", some "Demo product (DB not configured)", (999 : ℚ)/100,
        "books", none, some ((9 : ℚ)/2), []⟩ := by
  have h1 : ¬((999 : ℚ)/100 < 0) := by norm_num
  have h2 : ¬((9 : ℚ)/2 < 0) := by norm_num
  have h3 : ¬(5 < (9 : ℚ)/2) := by norm_num
  simp [demoDoc, serialize_product, pyGetD, pyLookup, pyFloat, pyOr_vnum_zero_right,
    pyOr_varr_empty, pyList, expectStr, expectOptStr, expectStrList, pyStr, h1, h2, h3]

theorem create_document_length (s : Store) (d : Doc) :
    ((create_document s d).2).docs.length = s.docs.length + 1 := by
  simp [create_document]

theorem insertSeeds_length_le (ds : List Doc) :
    ∀ (s : Store) (f : ℕ → Bool) (i : ℕ),
      (insertSeeds ds s f i).docs.length ≤ s.docs.length + ds.length := by
  induction ds with
  | nil => intro s f i; simp [insertSeeds]
  | cons d rest ih =>
      intro s f i
      cases hf : f i
      · simp only [insertSeeds, hf, Bool.false_eq_true, if_false]
        have h2 := ih (create_document s d).2 f (i + 1)
        rw [create_document_length] at h2
        simp only [List.length_cons]
        omega
      · simp only [insertSeeds, hf, if_true]
        simp only [List.length_cons]
        omega

theorem insertSeeds_length_nofault (ds : List Doc) :
    ∀ (s : Store) (i : ℕ),
      (insertSeeds ds s (fun _ => false) i).docs.length = s.docs.length + ds.length := by
  induction ds with
  | nil => intro s i; simp [insertSeeds]
  | cons d rest ih =>
      intro s i
      simp only [insertSeeds, Bool.false_eq_true, if_false]
      rw [ih, create_document_length]
      simp only [List.length_cons]
      omega

/-! ## Claims -/

/-- C1 (counterexample).  The claim says `serialize_product` never fails on
any stored document.  It does fail: on the document with a null `price`,
`float(doc.get("price", 0))` receives `None` (the key is present, so the
default is not used) and raises; the conversion errors instead of coercing
the null price to 0.0. -/
theorem serialize_product_not_total :
    (serialize_product [("price", Value.vnull)]).isOk = false := by decide

/-- C1 (amended).  The conversion defaults the fields it can: whenever it
succeeds, a missing `price` was coerced to 0.0, a missing or null `rating`
to 0.0, and a missing or null `tags` to the empty sequence; a document with
every field missing converts successfully.  But the conversion is not
total: a present-but-null `price` makes `float(None)` raise (and the
`Product` model re-validation can also fail, e.g. on a stored rating
outside [0,5]). -/
theorem serialize_product_defensive_amended (d : Doc) (p : Product)
    (h : serialize_product d = .ok p) :
    (pyLookup d "price" = none → p.price = 0) ∧
    ((pyLookup d "rating" = none ∨ pyLookup d "rating" = some .vnull) →
      p.rating = some 0) ∧
    ((pyLookup d "tags" = none ∨ pyLookup d "tags" = some .vnull) → p.tags = []) ∧
    (serialize_product ([] : Doc)).isOk = true ∧
    (serialize_product [("price", Value.vnull)]).isOk = false := by
  refine ⟨?_, ?_, ?_, by decide, by decide⟩
  · intro hp
    unfold serialize_product at h
    rw [pyGetD_of_lookup_none hp] at h
    simp only [pyFloat] at h
    repeat' split at h
    all_goals first
      | (simp only [Except.ok.injEq] at h; subst h; rfl)
      | simp at h
  · intro hr
    have hv : pyOr (pyGetD d "rating" (Value.vnum 0)) (Value.vnum 0) = Value.vnum 0 := by
      rcases hr with h1 | h1
      · rw [pyGetD_of_lookup_none h1]; simp [pyOr, Value.truthy]
      · rw [pyGetD_of_lookup_some h1]; simp [pyOr, Value.truthy]
    unfold serialize_product at h
    rw [hv] at h
    simp only [pyFloat] at h
    repeat' split at h
    all_goals first
      | (simp only [Except.ok.injEq] at h; subst h; rfl)
      | simp at h
  · intro ht
    have hv : pyOr (pyGetD d "tags" (Value.varr [])) (Value.varr []) = Value.varr [] := by
      rcases ht with h1 | h1
      · rw [pyGetD_of_lookup_none h1]; simp [pyOr, Value.truthy]
      · rw [pyGetD_of_lookup_some h1]; simp [pyOr, Value.truthy]
    unfold serialize_product at h
    rw [hv] at h
    simp only [pyList, expectStrList] at h
    repeat' split at h
    all_goals first
      | (simp only [Except.ok.injEq] at h; subst h; rfl)
      | simp at h

/-- Witness for C1 (amended): on the document whose only field is a null
rating, the conversion succeeds and the coerced defaults hold. -/
theorem serialize_product_defensive_amended_witness :
    (Product.mk "None" "" none 0 "" none (some 0) []).price = 0 ∧
    (Product.mk "None" "" none 0 "" none (some 0) []).rating = some 0 ∧
    (Product.mk "None" "" none 0 "" none (some 0) []).tags = [] := by
  have h := serialize_product_defensive_amended [("rating", Value.vnull)]
      (Product.mk "None" "" none 0 "" none (some 0) []) (by rfl)
  exact ⟨h.1 rfl, h.2.1 (Or.inr rfl), h.2.2.1 (Or.inl rfl)⟩

/-- C2.  A ProductIn payload with a negative price, or with a numeric
rating outside [0,5], is rejected by the request-body validation with a
client error naming the offending field, and the store state is unchanged
(the handler, and hence the insert, never runs). -/
theorem create_product_invalid_input_rejected (payload : Doc) (st : Option Store) :
    (∀ pr : ℚ, pyLookup payload "price" = some (.vnum pr) → pr < 0 →
      create_product st payload = (.clientError (fieldErrs payload), st) ∧
        "price" ∈ fieldErrs payload) ∧
    (∀ r : ℚ, pyLookup payload "rating" = some (.vnum r) → (r < 0 ∨ 5 < r) →
      create_product st payload = (.clientError (fieldErrs payload), st) ∧
        "rating" ∈ fieldErrs payload) := by
  constructor
  · intro pr hl hneg
    have hv := vPrice_error_of_neg hl hneg
    have hmem : "price" ∈ fieldErrs payload := by
      simp [fieldErrs, errFields, hv]
    exact ⟨create_product_of_parse_error
      (parseProductIn_error_of_ne payload (List.ne_nil_of_mem hmem)), hmem⟩
  · intro r hl hout
    have hv := vRating_error_of_out hl hout
    have hmem : "rating" ∈ fieldErrs payload := by
      simp [fieldErrs, errFields, hv]
    exact ⟨create_product_of_parse_error
      (parseProductIn_error_of_ne payload (List.ne_nil_of_mem hmem)), hmem⟩

/-- Witness for C2: a payload with price -1 is rejected naming `price`,
with the store untouched. -/
theorem create_product_invalid_input_rejected_witness :
    create_product none
        [("title", Value.vstr "X"), ("price", Value.vnum (-1)),
         ("category", Value.vstr "books")] =
      (.clientError (fieldErrs [("title", Value.vstr "X"), ("price", Value.vnum (-1)),
        ("category", Value.vstr "books")]), none) ∧
    "price" ∈ fieldErrs [("title", Value.vstr "X"), ("price", Value.vnum (-1)),
      ("category", Value.vstr "books")] := by
  exact (create_product_invalid_input_rejected [("title", Value.vstr "X"),
    ("price", Value.vnum (-1)), ("category", Value.vstr "books")] none).1
    (-1) rfl (by norm_num)

/-- C3.  For a payload that validates with the rating field omitted, the
created product returned by POST /api/products has rating 4.5 (the model
default is stored and read back unchanged). -/
theorem create_product_omitted_rating_defaults (payload : Doc) (s : Store)
    (pin : ProductIn)
    (hrat : pyLookup payload "rating" = none)
    (hok : parseProductIn payload = .ok pin)
    (hwf : ∀ d ∈ s.docs, docIdIs d (genId s.nextId) = false) :
    ∃ p st', create_product (some s) payload = (.created p, st') ∧
      p.rating = some ((9 : ℚ)/2) := by
  obtain ⟨_, _, hvp, _, _, hvr, _⟩ := parseProductIn_ok_fields hok
  rw [vRating_default hrat] at hvr
  simp only [Except.ok.injEq] at hvr
  have hpr := vPrice_ok_nonneg hvp
  have hrb : ∀ r, pin.rating = some r → 0 ≤ r ∧ r ≤ 5 := by
    intro r hrr
    rw [← hvr] at hrr
    simp only [Option.some.injEq] at hrr
    subst hrr
    constructor <;> norm_num
  refine ⟨⟨genId s.nextId, pin.title, pin.description, pin.price, pin.category,
      pin.image, some ((pin.rating).getD 0), pin.tags⟩,
    some ⟨s.docs ++ [("_id", Value.vstr (genId s.nextId)) :: productInToDoc pin],
      s.nextId + 1⟩, ?_, ?_⟩
  · simp only [create_product, hok, create_document]
    rw [find_one_insert s (productInToDoc pin) hwf]
    simp only [serialize_product_roundtrip (genId s.nextId) pin hpr hrb]
  · rw [← hvr]
    rfl

/-- Witness for C3: a minimal valid payload without rating yields a created
product with rating 4.5. -/
theorem create_product_omitted_rating_defaults_witness :
    ∃ p st', create_product (some ⟨[], 0⟩)
        [("title", Value.vstr "Pen"), ("price", Value.vnum 1),
         ("category", Value.vstr "study")] = (.created p, st') ∧
      p.rating = some ((9 : ℚ)/2) := by
  exact create_product_omitted_rating_defaults
    [("title", Value.vstr "Pen"), ("price", Value.vnum 1), ("category", Value.vstr "study")]
    ⟨[], 0⟩ ⟨"Pen", none, 1, "study", none, some ((9 : ℚ)/2), []⟩ rfl rfl (by simp)

/-- C4.  When the store is unavailable, POST /api/products with a payload
that passes body validation returns the 500 server error and performs no
write: there is no store, and the returned state is unchanged (`none`). -/
theorem create_product_store_unavailable_500 (payload : Doc) (pin : ProductIn)
    (hok : parseProductIn payload = .ok pin) :
    create_product none payload = (.serverError "Database not available", none) := by
  simp [create_product, hok]

/-- Witness for C4. -/
theorem create_product_store_unavailable_500_witness :
    create_product none
        [("title", Value.vstr "X"), ("price", Value.vnum 1),
         ("category", Value.vstr "books")] =
      (.serverError "Database not available", none) := by
  exact create_product_store_unavailable_500 _
    ⟨"X", none, 1, "books", none, some ((9 : ℚ)/2), []⟩ rfl

/-- C5.  When the store is unavailable, GET /api/products returns exactly
one synthetic demo product with category "books", for every combination of
`category`, `q` and (validly parsed) `limit` parameters. -/
theorem list_products_store_unavailable_demo (oid : String)
    (category q limitRaw : Option String) (n : ℤ)
    (hl : parseLimit limitRaw = .ok n) :
    ∃ p, list_products none oid category q limitRaw = .ok [p] ∧
      p.category = "books" := by
  refine ⟨⟨oid, "Sample Book", some "Demo product (DB not configured)", (999 : ℚ)/100,
      "books", none, some ((9 : ℚ)/2), []⟩, ?_, rfl⟩
  simp only [list_products, hl, serializeAll, serialize_demoDoc oid]

/-- Witness for C5. -/
theorem list_products_store_unavailable_demo_witness :
    ∃ p, list_products none "demo" none none none = .ok [p] ∧
      p.category = "books" := by
  exact list_products_store_unavailable_demo "demo" none none none 40 rfl

/-- C6.  A `limit` query value that is not an integer or lies outside
[1,100] is rejected with a client error naming `limit`, identically for
every store state (so the store is never consulted); an absent `limit`
parses to the default 40. -/
theorem list_products_limit_range_enforced (st : Option Store) (oid : String)
    (category q : Option String) (s : String)
    (hbad : parseIntStr s = none ∨ ∃ n : ℤ, parseIntStr s = some n ∧ (n < 1 ∨ 100 < n)) :
    list_products st oid category q (some s) = .clientError "limit" ∧
    parseLimit none = .ok 40 := by
  refine ⟨?_, rfl⟩
  have hpl : parseLimit (some s) = .error "limit" := by
    rcases hbad with h | ⟨n, hn, hout⟩
    · simp [parseLimit, h]
    · have hno : ¬(1 ≤ n ∧ n ≤ 100) := by omega
      simp [parseLimit, hn, hno]
  simp [list_products, hpl]

/-- Witness for C6: `limit=101` is rejected. -/
theorem list_products_limit_range_enforced_witness :
    list_products none "x" none none (some "101") = .clientError "limit" ∧
    parseLimit none = .ok 40 := by
  exact list_products_limit_range_enforced none "x" none none "101"
    (Or.inr ⟨101, rfl, by norm_num⟩)

/-- C7.  Seeding is idempotent and fault-tolerant: it is a no-op when the
store is unavailable; it is a no-op whenever the collection is non-empty;
a fault-free run on an empty collection inserts exactly the 8 samples; and
two consecutive runs from an empty collection, under any fault schedules
(each insert fault being caught and discarded), leave at most 8 documents. -/
theorem seed_products_if_empty_idempotent (s : Store) (hs : s.docs = [])
    (f1 f2 : ℕ → Bool) :
    (∀ f, seed_products_if_empty none f = none) ∧
    (∀ t g, t.docs ≠ [] → seed_products_if_empty (some t) g = some t) ∧
    (∃ t, seed_products_if_empty (some s) (fun _ => false) = some t ∧
      t.docs.length = 8) ∧
    (∀ t, seed_products_if_empty (seed_products_if_empty (some s) f1) f2 = some t →
      t.docs.length ≤ 8) := by
  have hlen0 : s.docs.length = 0 := by rw [hs]; rfl
  refine ⟨fun f => rfl, ?_, ?_, ?_⟩
  · intro t g ht
    have hpos : t.docs.length > 0 := List.length_pos.mpr ht
    simp [seed_products_if_empty, hpos]
  · refine ⟨insertSeeds sample_products s (fun _ => false) 0, ?_, ?_⟩
    · simp [seed_products_if_empty, hlen0]
    · rw [insertSeeds_length_nofault, hlen0]
      rfl
  · intro t h
    have h1 : seed_products_if_empty (some s) f1 =
        some (insertSeeds sample_products s f1 0) := by
      simp [seed_products_if_empty, hlen0]
    rw [h1] at h
    have hle1 : (insertSeeds sample_products s f1 0).docs.length ≤ 8 := by
      have h2 := insertSeeds_length_le sample_products s f1 0
      rw [hlen0] at h2
      simpa using h2
    by_cases hpos : (insertSeeds sample_products s f1 0).docs.length > 0
    · simp only [seed_products_if_empty, hpos, if_true, Option.some.injEq] at h
      rw [← h]
      exact hle1
    · have hzero : (insertSeeds sample_products s f1 0).docs.length = 0 := by omega
      simp only [seed_products_if_empty, hpos, if_false, Option.some.injEq] at h
      have h2 := insertSeeds_length_le sample_products
        (insertSeeds sample_products s f1 0) f2 0
      rw [hzero] at h2
      rw [← h]
      simpa using h2

/-- Witness for C7: a fault-free seeding of the empty store yields 8
documents. -/
theorem seed_products_if_empty_idempotent_witness :
    ∃ t, seed_products_if_empty (some ⟨[], 0⟩) (fun _ => false) = some t ∧
      t.docs.length = 8 := by
  exact (seed_products_if_empty_idempotent ⟨[], 0⟩ rfl
    (fun _ => false) (fun _ => false)).2.2.1

/-- C8.  GET /test always answers 200 with a status report: the handler
body is total for every store state, reports at most 10 collection names,
and renders a `list_collection_names` exception as a status string
truncated to 50 characters instead of propagating it. -/
theorem test_database_always_200 (db : Option DbConn) (envUrl envName : Option String) :
    httpStatusOf (test_route db envUrl envName) = 200 ∧
    (test_database db envUrl envName).backend = "✅ Running" ∧
    (test_database db envUrl envName).collections.length ≤ 10 ∧
    (∀ c e, db = some c → c.collectionNames = .error e →
      (test_database db envUrl envName).database =
        "⚠️ Connected but Error: " ++ e.take 50) := by
  refine ⟨rfl, ?_, ?_, ?_⟩
  · cases db with
    | none => rfl
    | some c => cases hc : c.collectionNames <;> simp [test_database, hc]
  · cases db with
    | none => simp [test_database]
    | some c =>
        cases hc : c.collectionNames with
        | ok cols => simp [test_database, hc, List.length_take]
        | error e => simp [test_database, hc]
  · intro c e hdb hce
    subst hdb
    simp [test_database, hce]

/-- Witness for C8: a throwing connection still yields a 200 status report
with the rendered error text. -/
theorem test_database_always_200_witness :
    httpStatusOf (test_route (some ⟨Except.error "boom"⟩) none none) = 200 ∧
    (test_database (some ⟨Except.error "boom"⟩) none none).database =
      "⚠️ Connected but Error: " ++ "boom".take 50 := by
  have h := test_database_always_200 (some ⟨Except.error "boom"⟩) none none
  exact ⟨h.1, h.2.2.2 ⟨Except.error "boom"⟩ "boom" rfl rfl⟩

/-- C9.  For a request supplying only `q` (non-empty), the filter sent to
the store matches a document exactly when `q` is a case-insensitive
substring of its title, or of its description, or of some entry of its
tags sequence. -/
theorem list_products_q_or_semantics (q : String) (hq : q ≠ "")
    (d : Doc) (title desc : String) (tags : List String)
    (ht : pyLookup d "title" = some (.vstr title))
    (hd : pyLookup d "description" = some (.vstr desc))
    (htg : pyLookup d "tags" = some (.varr (tags.map Value.vstr))) :
    (docMatches (buildFilter none (some q)) d = true) ↔
      (ciContains title q = true ∨ ciContains desc q = true ∨
        ∃ s ∈ tags, ciContains s q = true) := by
  simp [docMatches, buildFilter, hq, regexFieldMatch, ht, hd, htg,
    List.any_map, List.any_eq_true, Function.comp, or_assoc]

/-- Witness for C9: `q=coffee` matches a document whose tags contain
"coffee" although neither title nor description contains it. -/
theorem list_products_q_or_semantics_witness :
    docMatches (buildFilter none (some "coffee"))
        [("title", Value.vstr "Espresso Shot"),
         ("description", Value.vstr "Quick energy boost"),
         ("tags", Value.varr [Value.vstr "coffee"])] = true ∧
    ciContains "Espresso Shot" "coffee" = false ∧
    ciContains "Quick energy boost" "coffee" = false := by
  refine ⟨(list_products_q_or_semantics "coffee" (by decide)
      [("title", Value.vstr "Espresso Shot"),
       ("description", Value.vstr "Quick energy boost"),
       ("tags", Value.varr [Value.vstr "coffee"])]
      "Espresso Shot" "Quick energy boost" ["coffee"] rfl rfl rfl).mpr
    (Or.inr (Or.inr ⟨"coffee", by simp, by decide⟩)), by decide, by decide⟩

/-- C10.  A payload supplying `rating` explicitly as null passes validation
(the field is Optional), the null is stored, and the read-back coercion
`float(doc.get("rating", 0) or 0)` turns it into 0: the created product's
rating is 0, not the documented default 4.5. -/
theorem create_product_null_rating_zero :
    create_product (some ⟨[], 0⟩)
        [("title", Value.vstr "Mug"), ("price", Value.vnum 5),
         ("category", Value.vstr "merch"), ("rating", Value.vnull)] =
      (.created ⟨"oid_0", "Mug", none, 5, "merch", none, some 0, []⟩,
        some ⟨[[("_id", Value.vstr "oid_0"), ("title", Value.vstr "Mug"),
          ("description", Value.vnull), ("price", Value.vnum 5),
          ("category", Value.vstr "merch"), ("image", Value.vnull),
          ("rating", Value.vnull), ("tags", Value.varr [])]], 1⟩) ∧
    some (0 : ℚ) ≠ some ((9 : ℚ)/2) := by
  exact ⟨rfl, by norm_num⟩
